import Mathlib

/-!
Verification development for the asynchronous transcoding job pipeline of the
streaming-poc repository.  The definitions below are a shallow embedding of the
three core components:

* `BackgroundProcessor` (src/services/backgroundProcessor.js) — the job
  tracker: admission control in `startEncodingJob`, the staged pipeline in
  `processVideo`, and the query operations `getJobStatus` / `getAllJobs`.
* `CloudWatchLogger` (src/services/cloudWatchLogger.js) — the progress log:
  `ensureLogStream` and `logProgress` over a modelled remote log service with
  sequence tokens.
* `VideoProcessor.generateMasterPlaylist` (src/services/videoProcessor.js) —
  the master-manifest text builder.

Fallible external operations (S3 download, ffmpeg invocation, S3 upload,
manifest upload, CloudWatch calls) are modelled by an environment record of
`Except`-valued outcomes; the pipeline definitions thread explicit state and
additionally record a trace of progress writes and of the operations invoked,
so that frame and cleanup properties can be stated.
-/

namespace StreamingPoc

/-! ## Job data model (the values stored in `this.activeJobs`) -/

inductive JobStatus
  | processing
  | completed
  | failed
  deriving DecidableEq, Repr

/-- The streaming URL record built on the success path of `processVideo`
(backgroundProcessor.js lines 92-98). -/
structure StreamingUrls where
  master : String
  q360 : String
  q720 : String
  deriving DecidableEq, Repr

/-- One entry of `this.activeJobs`: the fields the code writes
(`status`, `progress`, `startTime`, `endTime`, `streamingUrls`, `error`).
Timestamps are modelled as natural numbers. -/
structure Job where
  status : JobStatus
  progress : Nat
  startTime : Nat
  endTime : Option Nat
  streamingUrls : Option StreamingUrls
  error : Option String
  deriving DecidableEq, Repr

/-- `this.activeJobs : Map videoId -> job`, as an association list.
Keys are unique because entries are only ever inserted when absent. -/
abbrev Registry := List (String × Job)

/-- The record created by `startEncodingJob` on admission
(backgroundProcessor.js lines 17-21). -/
def initialJob (now : Nat) : Job :=
  { status := .processing, progress := 0, startTime := now,
    endTime := none, streamingUrls := none, error := none }

/-- `this.activeJobs.delete(videoId)`. -/
def eraseJob (reg : Registry) (videoId : String) : Registry :=
  reg.filter (fun e => e.1 != videoId)

/-- `startEncodingJob(videoId, s3Key)` (backgroundProcessor.js lines 9-41).

The body runs inside one try/catch.  The only statement in the try block that
can throw is the admission check (line 13): `logStart` delegates to
`logProgress`, which swallows every error, and `processVideo` is invoked
without `await`, so its rejection is never observed here.  When the admission
check throws, control reaches the catch block, which executes
`this.activeJobs.delete(videoId)` — deleting the record of the job that is
already running — and rethrows.  On admission the record is created and the
call returns the success object. -/
def startEncodingJob (reg : Registry) (videoId : String) (now : Nat) :
    Registry × Except String Unit :=
  if (reg.lookup videoId).isSome then
    (eraseJob reg videoId, .error "Video encoding job already in progress")
  else
    ((videoId, initialJob now) :: reg, .ok ())

/-- The per-job view assembled by `getAllJobs` (backgroundProcessor.js
lines 146-152). -/
structure JobView where
  videoId : String
  status : JobStatus
  progress : Nat
  startTime : Nat
  endTime : Option Nat
  deriving DecidableEq, Repr

def mkJobView (videoId : String) (j : Job) : JobView :=
  { videoId := videoId, status := j.status, progress := j.progress,
    startTime := j.startTime, endTime := j.endTime }

/-- `getAllJobs()` (backgroundProcessor.js lines 143-155): pushes a view of
every entry of `this.activeJobs`, with no filter on `job.status`. -/
def getAllJobs (reg : Registry) : List JobView :=
  reg.map (fun e => mkJobView e.1 e.2)

/-- Modelled from the spec (§4.1): `listActive() -> [Job]`, a "snapshot of all
records currently `processing`".  This is the behaviour the spec ascribes to
`getAllJobs`; it is compared with the definition above. -/
def specListActive (reg : Registry) : List JobView :=
  (reg.filter (fun e => decide (e.2.status = JobStatus.processing))).map
    (fun e => mkJobView e.1 e.2)

/-! ## The staged pipeline `processVideo` -/

/-- Stage attribution for each write to `job.progress`.  `completion` tags the
final `job.progress = 100` executed in the success epilogue. -/
inductive Stage
  | download
  | rendition (i : Nat)
  | publish
  | completion
  deriving DecidableEq, Repr

/-- The operations `processVideo` invokes, in invocation order.  `logError`
records the `cloudWatchLogger.logError` call of the catch block. -/
inductive Op
  | download
  | prepareDir
  | convert (i : Nat)
  | upload
  | genMaster
  | cleanup
  | logComplete
  | logError (msg : String)
  deriving DecidableEq, Repr

/-- One entry of the `qualities` array (backgroundProcessor.js lines 61-64). -/
structure Quality where
  name : String
  resolution : String
  bitrate : String
  deriving DecidableEq, Repr

def qualities : List Quality :=
  [{ name := "360p", resolution := "640x360", bitrate := "500k" },
   { name := "720p", resolution := "1280x720", bitrate := "2000k" }]

/-- Outcomes of the fallible external operations used by one `processVideo`
run, plus the clock used for `new Date()` at terminal transitions. -/
structure PipelineEnv where
  download : Except String String
  prepareDir : Except String String
  convert : Nat → Except String Unit
  upload : Except String Unit
  genMaster : Except String String
  now : Nat

/-- The evolving state of one run: the job record plus the trace of progress
writes and invoked operations. -/
structure PState where
  job : Job
  writes : List (Stage × Nat)
  ops : List Op
  deriving Repr

/-- `job.progress = p`, recorded with its stage tag. -/
def recordWrite (st : PState) (s : Stage) (p : Nat) : PState :=
  { st with job := { st.job with progress := p }, writes := st.writes ++ [(s, p)] }

def recordOp (st : PState) (o : Op) : PState :=
  { st with ops := st.ops ++ [o] }

/-- The conversion loop (backgroundProcessor.js lines 66-77).  For the i-th
quality the code computes `qualityProgress = 10 + (i * 30) + 15`, writes it
before `convertQuality`, and writes `qualityProgress + 15` after it. -/
def convertLoop (env : PipelineEnv) (i : Nat) (qs : List Quality) (st : PState) :
    Except (PState × String) PState :=
  match qs with
  | [] => .ok st
  | _q :: rest =>
    let qp := 10 + i * 30 + 15
    let st1 := recordOp (recordWrite st (Stage.rendition i) qp) (Op.convert i)
    match env.convert i with
    | .error e => .error (st1, e)
    | .ok _ =>
      convertLoop env (i + 1) rest (recordWrite st1 (Stage.rendition i) (qp + 15))

def mkStreamingUrls (masterKey : String) : StreamingUrls :=
  { master := "https://BUCKET.s3.amazonaws.com/" ++ masterKey,
    q360 := "https://BUCKET.s3.amazonaws.com/hls/v/360p/playlist.m3u8",
    q720 := "https://BUCKET.s3.amazonaws.com/hls/v/720p/playlist.m3u8" }

/-- The try block of `processVideo` (backgroundProcessor.js lines 44-110):
download (writes 5 then 10), output-dir preparation, the conversion loop,
upload (writes 80 then 90), master-playlist generation, cleanup, and the
completion epilogue (write 100, `status = completed`, `endTime`).  A stage
failure aborts with the state reached so far. -/
def pipelineBody (env : PipelineEnv) (job0 : Job) : Except (PState × String) PState :=
  let st1 := recordOp (recordWrite { job := job0, writes := [], ops := [] } Stage.download 5)
    Op.download
  match env.download with
  | .error e => .error (st1, e)
  | .ok _localPath =>
    let st2 := recordOp (recordWrite st1 Stage.download 10) Op.prepareDir
    match env.prepareDir with
    | .error e => .error (st2, e)
    | .ok _outputDir =>
      match convertLoop env 0 qualities st2 with
      | .error pe => .error pe
      | .ok st3 =>
        let st4 := recordOp (recordWrite st3 Stage.publish 80) Op.upload
        match env.upload with
        | .error e => .error (st4, e)
        | .ok _ =>
          let st5 := recordOp (recordWrite st4 Stage.publish 90) Op.genMaster
          match env.genMaster with
          | .error e => .error (st5, e)
          | .ok masterKey =>
            let st6 := recordWrite (recordOp (recordOp st5 Op.cleanup) Op.logComplete)
              Stage.completion 100
            .ok { st6 with
              job := { st6.job with
                status := JobStatus.completed,
                endTime := some env.now,
                streamingUrls := some (mkStreamingUrls masterKey) } }

/-- `processVideo` (backgroundProcessor.js lines 43-124): the try block above
wrapped by the catch block (lines 112-123), which marks the job `failed`,
stores `error.message` verbatim in `job.error`, sets `endTime`, and calls
`cloudWatchLogger.logError`.  The catch block performs no cleanup call and no
progress write. -/
def processVideo (env : PipelineEnv) (job0 : Job) : PState :=
  match pipelineBody env job0 with
  | .ok st => st
  | .error (st, msg) =>
    { st with
      job := { st.job with
        status := JobStatus.failed, error := some msg,
        endTime := some env.now },
      ops := st.ops ++ [Op.logError msg] }

/-- An environment in which every external operation succeeds. -/
def allOkEnv : PipelineEnv :=
  { download := .ok "/tmp/video-processing/1700000000000-in.mp4",
    prepareDir := .ok "/tmp/video-processing/v1",
    convert := fun _ => .ok (),
    upload := .ok (),
    genMaster := .ok "hls/v1/master.m3u8",
    now := 42 }

/-- The progress-write trace of a fully successful run. -/
def successWrites : List (Stage × Nat) :=
  (processVideo allOkEnv (initialJob 0)).writes

/-! ## CloudWatchLogger (src/services/cloudWatchLogger.js)

The logger instance holds a single mutable field `this.sequenceToken`
(line 9), shared by all streams.  The remote log service is modelled by the
per-stream append count: the `uploadSequenceToken` of the service for a stream with
`n` appended events is absent when `n = 0` and otherwise an opaque string
derived from the stream name and `n`; `PutLogEvents` accepts an append exactly
when the presented token equals that expected token, and then returns the next
token. -/

/-- The mutable state of the singleton logger: `this.sequenceToken`. -/
structure LoggerState where
  sequenceToken : Option String
  deriving DecidableEq, Repr

/-- The remote log service: each stream name maps to the number of events
appended so far. -/
structure LogServiceState where
  streams : List (String × Nat)
  deriving DecidableEq, Repr

/-- The opaque token the service returns after the n-th successful append to
`stream` (and expects for the following append). -/
def nextTokenFor (stream : String) (n : Nat) : String :=
  stream ++ "#" ++ toString n

/-- The `uploadSequenceToken` reported by `DescribeLogStreams` for a stream
with `n` appended events: absent while the stream is empty. -/
def uploadTokenOf (stream : String) (n : Nat) : Option String :=
  if n = 0 then none else some (nextTokenFor stream n)

/-- Failure injection for the two remote calls of one `logProgress` run:
`ensureFailure` makes `ensureLogStream` throw (describe/create failure),
`putFailure` makes the `PutLogEvents` transport fail. -/
structure LogEnv where
  ensureFailure : Option String
  putFailure : Option String

/-- `const streamName = video-${videoId}` (cloudWatchLogger.js line 13),
written here without the template literal. -/
def streamNameOf (videoId : String) : String :=
  "video-" ++ videoId

def setStreamCount (svc : LogServiceState) (stream : String) (n : Nat) :
    LogServiceState :=
  { streams := (stream, n) :: svc.streams.filter (fun e => e.1 != stream) }

/-- `ensureLogStream(videoId)` (cloudWatchLogger.js lines 12-42): describe the
stream; if absent, create it and set `this.sequenceToken = null`; if present,
set `this.sequenceToken = existingStream.uploadSequenceToken`.  Errors are
rethrown (line 40). -/
def ensureLogStream (env : LogEnv) (svc : LogServiceState) (lg : LoggerState)
    (videoId : String) : LogServiceState × LoggerState × Except String String :=
  let stream := streamNameOf videoId
  match env.ensureFailure with
  | some e => (svc, lg, .error e)
  | none =>
    match svc.streams.lookup stream with
    | none => ({ streams := (stream, 0) :: svc.streams }, { sequenceToken := none },
               .ok stream)
    | some n => (svc, { sequenceToken := uploadTokenOf stream n }, .ok stream)

/-- The service side of `PutLogEvents`: reject on transport failure, unknown
stream, or an out-of-order sequence token; otherwise advance the stream and
return the next token. -/
def putLogEvents (env : LogEnv) (svc : LogServiceState) (stream : String)
    (presented : Option String) : LogServiceState × Except String String :=
  match env.putFailure with
  | some e => (svc, .error e)
  | none =>
    match svc.streams.lookup stream with
    | none => (svc, .error "ResourceNotFoundException")
    | some n =>
      if presented = uploadTokenOf stream n then
        (setStreamCount svc stream (n + 1), .ok (nextTokenFor stream (n + 1)))
      else
        (svc, .error "InvalidSequenceTokenException")

/-- One `PutLogEvents` call as issued by `logProgress`: the destination
stream, the event payload, the sequence token presented, and the
`nextSequenceToken` returned (`none` when the call failed). -/
structure PutCall where
  stream : String
  message : String
  progress : Option Nat
  presented : Option String
  returned : Option String
  deriving DecidableEq, Repr

/-- `logProgress(videoId, message, progress)` (cloudWatchLogger.js
lines 44-73).  The whole body sits in one try/catch: `ensureLogStream`, the
`PutLogEvents` call presenting `this.sequenceToken`, and on success
`this.sequenceToken = result.nextSequenceToken`.  The catch block only logs,
so the function itself always returns normally; the returned `Except` is the
value observed by callers. -/
def logProgress (env : LogEnv) (svc : LogServiceState) (lg : LoggerState)
    (videoId message : String) (progress : Option Nat) :
    LogServiceState × LoggerState × List PutCall × Except String Unit :=
  match ensureLogStream env svc lg videoId with
  | (svc1, lg1, .error _e) => (svc1, lg1, [], .ok ())
  | (svc1, lg1, .ok stream) =>
    let presented := lg1.sequenceToken
    match putLogEvents env svc1 stream presented with
    | (svc2, .ok next) =>
      (svc2, { sequenceToken := some next },
       [{ stream := stream, message := message, progress := progress,
          presented := presented, returned := some next }], .ok ())
    | (svc2, .error _e) =>
      (svc2, lg1,
       [{ stream := stream, message := message, progress := progress,
          presented := presented, returned := none }], .ok ())

/-- The environment in which both remote log calls succeed. -/
def okLogEnv : LogEnv :=
  { ensureFailure := none, putFailure := none }

/-! ## VideoProcessor.generateMasterPlaylist (src/services/videoProcessor.js
lines 90-114): the manifest text built before upload. -/

def masterQualities : List String := ["360p", "720p"]

/-- The ternary `quality === "360p" ? "500000" : "2000000"` (line 95). -/
def bandwidthOf (q : String) : String :=
  if q = "360p" then "500000" else "2000000"

/-- The ternary `quality === "360p" ? "640x360" : "1280x720"` (line 96). -/
def resolutionOf (q : String) : String :=
  if q = "360p" then "640x360" else "1280x720"

/-- The `masterContent` string: header lines then, per quality, a stream-info
line and the relative playlist path line. -/
def generateMasterPlaylistContent : String :=
  masterQualities.foldl
    (fun acc q =>
      acc ++ "#EXT-X-STREAM-INF:BANDWIDTH=" ++ bandwidthOf q ++ ",RESOLUTION="
          ++ resolutionOf q ++ "\n" ++ q ++ "/playlist.m3u8\n")
    "#EXTM3U\n#EXT-X-VERSION:3\n"

/-! ## Claim theorems -/

/-- C1: the second `startEncodingJob` for a resource whose job is still
`processing` does fail synchronously with the already-in-progress error, but
the catch block of the calling code then executes `activeJobs.delete(videoId)`, so
afterwards the tracker holds NO record for that resource — not the one
unchanged record the claim requires.  Evaluated at the failing input: a
registry holding the processing job of "v1", resubmitting "v1". -/
theorem c1_second_submit_deletes_record :
    (startEncodingJob [("v1", initialJob 0)] "v1" 5).2 =
      Except.error "Video encoding job already in progress" ∧
    ((startEncodingJob [("v1", initialJob 0)] "v1" 5).1).lookup "v1" = none ∧
    (startEncodingJob [("v1", initialJob 0)] "v1" 5).1 = [] :=
  ⟨rfl, rfl, rfl⟩

/-- A `processVideo` environment whose source fetch fails. -/
def c2FetchFailEnv : PipelineEnv :=
  { download := .error "NoSuchKey: The specified key does not exist.",
    prepareDir := .ok "/tmp/video-processing/v1",
    convert := fun _ => .ok (), upload := .ok (),
    genMaster := .ok "hls/v1/master.m3u8", now := 7 }

/-- C2 counterexample: a job whose download stage fails reaches the terminal
state `failed`, yet `videoProcessor.cleanup` is never invoked — the cleanup
call sits only on the success path of `processVideo`, and the catch block does
not call it. -/
theorem c2_counterexample :
    (processVideo c2FetchFailEnv (initialJob 0)).job.status = JobStatus.failed ∧
    Op.cleanup ∉ (processVideo c2FetchFailEnv (initialJob 0)).ops := by
  decide

/-- C2 (amended): the pipeline driver invokes cleanup exactly on runs that
reach `completed`; on every failed run (failure at any stage) cleanup is not
invoked, so the downloaded file and working directory persist. -/
theorem c2_cleanup_iff_completed (env : PipelineEnv) :
    Op.cleanup ∈ (processVideo env (initialJob 0)).ops ↔
      (processVideo env (initialJob 0)).job.status = JobStatus.completed := by
  obtain ⟨dl, pd, cv, ul, gm, now⟩ := env
  cases dl <;> cases pd <;> cases h0 : cv 0 <;> cases h1 : cv 1 <;> cases ul <;> cases gm <;>
    simp [processVideo, pipelineBody, convertLoop, qualities, recordWrite, recordOp, h0, h1]

/-- Modelled from the spec (§4.1 and the claim): the fixed progress
allocation the claim asserts for the successful run — Download confined to
0–10, rendition i of the two renditions owning the i-th equal slice of 10–80
(floor written before its encode, ceiling at its completion), Publish confined
to 80–90, and the remaining writes confined to 90–100. -/
def specC3Allocation : Prop :=
  (∀ p ∈ successWrites, p.1 = Stage.download → p.2 ≤ 10) ∧
  ((successWrites.filter (fun p => p.1 == Stage.rendition 0)).map Prod.snd = [10, 45]) ∧
  ((successWrites.filter (fun p => p.1 == Stage.rendition 1)).map Prod.snd = [45, 80]) ∧
  (∀ p ∈ successWrites, p.1 = Stage.publish → 80 ≤ p.2 ∧ p.2 ≤ 90) ∧
  (∀ p ∈ successWrites, p.1 = Stage.completion → 90 ≤ p.2 ∧ p.2 ≤ 100)

/-- C3 counterexample: the writes of the successful run do not follow the claimed
equal-slice allocation of 10–80 — the writes of the first rendition are 25 and 40,
not the 10 and 45 that equal slices of 10–80 would give. -/
theorem c3_counterexample : ¬ specC3Allocation := by
  unfold specC3Allocation
  decide

/-- C3 (amended): in a successful run, Download writes exactly 5 and 10 (so
stays within 0–10), rendition i writes exactly 25 + 30·i before its encode
and 40 + 30·i on its completion — two equal-width bands inside 10–80 that do
not tile that range — Publish writes exactly 80 and 90, and the single write
after Publish is the 100 written at completion. -/
theorem c3_progress_allocation :
    successWrites = [(Stage.download, 5), (Stage.download, 10),
      (Stage.rendition 0, 25), (Stage.rendition 0, 40),
      (Stage.rendition 1, 55), (Stage.rendition 1, 70),
      (Stage.publish, 80), (Stage.publish, 90), (Stage.completion, 100)] ∧
    ((successWrites.filter (fun p => p.1 == Stage.download)).map Prod.snd = [5, 10]) ∧
    ((successWrites.filter (fun p => p.1 == Stage.rendition 0)).map Prod.snd
      = [10 + 0 * 30 + 15, 10 + 0 * 30 + 30]) ∧
    ((successWrites.filter (fun p => p.1 == Stage.rendition 1)).map Prod.snd
      = [10 + 1 * 30 + 15, 10 + 1 * 30 + 30]) ∧
    ((successWrites.filter (fun p => p.1 == Stage.publish)).map Prod.snd = [80, 90]) ∧
    ((successWrites.filter (fun p => p.1 == Stage.completion)).map Prod.snd = [100]) := by
  decide

/-- C5: over any one run of the pipeline — whatever the outcome of each
fallible stage — the recorded progress sequence (starting from the admission
value 0) is monotonically non-decreasing, every value is at most 100, and the
progress of the final record is 100 exactly when the final state is `completed`. -/
theorem c5_progress_monotone (env : PipelineEnv) :
    List.Chain' (· ≤ ·)
      (0 :: ((processVideo env (initialJob 0)).writes.map Prod.snd)) ∧
    ((processVideo env (initialJob 0)).writes.map Prod.snd).all
      (fun p => p ≤ 100) = true ∧
    (processVideo env (initialJob 0)).job.progress ≤ 100 ∧
    ((processVideo env (initialJob 0)).job.progress = 100 ↔
      (processVideo env (initialJob 0)).job.status = JobStatus.completed) := by
  obtain ⟨dl, pd, cv, ul, gm, now⟩ := env
  cases dl <;> cases pd <;> cases h0 : cv 0 <;> cases h1 : cv 1 <;> cases ul <;> cases gm <;>
    simp [processVideo, pipelineBody, convertLoop, qualities, recordWrite, recordOp,
      initialJob, h0, h1]

/-- C8: whenever the source fetch fails, the job ends `failed` with the fetch
error message stored verbatim, `endTime` set, and progress frozen at 5 —
the download-stage floor, inside the 0–10 range. -/
theorem c8_fetch_failure (env : PipelineEnv) (msg : String)
    (h : env.download = Except.error msg) :
    (processVideo env (initialJob 0)).job.status = JobStatus.failed ∧
    (processVideo env (initialJob 0)).job.error = some msg ∧
    ((processVideo env (initialJob 0)).job.endTime).isSome = true ∧
    (processVideo env (initialJob 0)).job.progress = 5 ∧
    (processVideo env (initialJob 0)).job.progress ≤ 10 := by
  obtain ⟨dl, pd, cv, ul, gm, now⟩ := env
  simp only at h
  subst h
  simp [processVideo, pipelineBody, recordWrite, recordOp, initialJob]

/-- A fetch-failure environment for evaluating `c8_fetch_failure`. -/
def c8FetchFailEnv : PipelineEnv :=
  { download := .error "NoSuchKey", prepareDir := .ok "/tmp/video-processing/w",
    convert := fun _ => .ok (), upload := .ok (),
    genMaster := .ok "hls/w/master.m3u8", now := 3 }

/-- C8 witness: `c8_fetch_failure` evaluated at a concrete failing fetch. -/
theorem c8_fetch_failure_witness :
    (processVideo c8FetchFailEnv (initialJob 0)).job.status = JobStatus.failed ∧
    (processVideo c8FetchFailEnv (initialJob 0)).job.error = some "NoSuchKey" ∧
    ((processVideo c8FetchFailEnv (initialJob 0)).job.endTime).isSome = true ∧
    (processVideo c8FetchFailEnv (initialJob 0)).job.progress = 5 ∧
    (processVideo c8FetchFailEnv (initialJob 0)).job.progress ≤ 10 :=
  c8_fetch_failure c8FetchFailEnv "NoSuchKey" rfl

/-- Structural newline splitter used to observe the manifest text line by
line (kernel-reducible, unlike `String.splitOn`). -/
def splitChars (sep : Char) : List Char → List (List Char)
  | [] => [[]]
  | c :: rest =>
    let r := splitChars sep rest
    if c = sep then
      [] :: r
    else
      match r with
      | [] => [[c]]
      | h :: t => (c :: h) :: t

def linesOf (s : String) : List String :=
  (splitChars (Char.ofNat 10) s.data).map (fun cs => String.mk cs)

/-- C7: the generated master manifest splits into exactly the header lines,
two stream-info blocks in rendition order (360p with bandwidth 500000 and
resolution 640x360, then 720p with bandwidth 2000000 and resolution
1280x720), each followed by the relative playlist path; every playlist path
line is relative (no URL scheme character, so no absolute URL) and carries no
query string. -/
theorem c7_master_playlist :
    linesOf generateMasterPlaylistContent =
      ["#EXTM3U", "#EXT-X-VERSION:3",
       "#EXT-X-STREAM-INF:BANDWIDTH=500000,RESOLUTION=640x360",
       "360p/playlist.m3u8",
       "#EXT-X-STREAM-INF:BANDWIDTH=2000000,RESOLUTION=1280x720",
       "720p/playlist.m3u8", ""] ∧
    ((linesOf generateMasterPlaylistContent).filter
      (fun l => "#EXT-X-STREAM-INF".data.isPrefixOf l.data)).length = 2 ∧
    (∀ l ∈ linesOf generateMasterPlaylistContent,
      "/playlist.m3u8".data.isSuffixOf l.data = true →
        "http".data.isPrefixOf l.data = false ∧
        (Char.ofNat 63) ∉ l.data ∧ (Char.ofNat 58) ∉ l.data) := by
  decide

/-- A terminal job retained for status polling. -/
def c10DoneJob : Job :=
  { status := .completed, progress := 100, startTime := 0, endTime := some 10,
    streamingUrls := none, error := none }

/-- C10 counterexample: a registry holding one completed record.  `getAllJobs`
returns that record, while the claimed processing-only snapshot would be
empty. -/
theorem c10_counterexample :
    getAllJobs [("v1", c10DoneJob)] ≠ specListActive [("v1", c10DoneJob)] := by
  decide

/-- C10 (amended): `getAllJobs` returns a snapshot of every retained record —
`processing`, `completed` and `failed` alike: its members are exactly the
views of all registry entries. -/
theorem c10_getalljobs_returns_every_record (reg : Registry) (x : JobView) :
    x ∈ getAllJobs reg ↔ ∃ v j, (v, j) ∈ reg ∧ x = mkJobView v j := by
  simp only [getAllJobs, List.mem_map]
  constructor
  · rintro ⟨⟨v, j⟩, hm, he⟩
    exact ⟨v, j, hm, he.symm⟩
  · rintro ⟨v, j, hm, he⟩
    exact ⟨⟨v, j⟩, hm, he.symm⟩

/-- C9: a failure anywhere inside `logProgress` — in `ensureLogStream` (which
itself rethrows) or in the `PutLogEvents` call (transport failure, missing
stream, or sequence-token rejection) — is caught by the try/catch of
`logProgress` and never reaches the caller, so no pipeline stage can be
aborted by a logging failure. -/
theorem c9_log_failure_never_propagates (env : LogEnv) (svc : LogServiceState)
    (lg : LoggerState) (videoId message : String) (progress : Option Nat) :
    (logProgress env svc lg videoId message progress).2.2.2 = Except.ok () := by
  rcases h : ensureLogStream env svc lg videoId with ⟨svc1, lg1, r⟩
  rcases r with e | stream
  · simp [logProgress, h]
  · rcases h2 : putLogEvents env svc1 stream lg1.sequenceToken with ⟨svc2, r2⟩
    rcases r2 with e2 | next <;> simp [logProgress, h, h2]

/-- The stream-name derivation is injective, so distinct resource ids address
distinct log streams. -/
theorem streamNameOf_injective {a b : String} (h : streamNameOf a = streamNameOf b) :
    a = b := by
  have hd := congrArg String.data h
  simp only [streamNameOf, String.data_append] at hd
  exact String.ext (List.append_cancel_left hd)

/-- Evaluation lemma: a successful `logProgress` against a service that does
not yet know the stream creates it, presents the empty cursor, and stores the
returned token. -/
theorem logProgress_fresh (rid m : String) (p : Option Nat) (lg : LoggerState) :
    logProgress okLogEnv { streams := [] } lg rid m p =
      ({ streams := [(streamNameOf rid, 1)] },
       { sequenceToken := some (nextTokenFor (streamNameOf rid) 1) },
       [{ stream := streamNameOf rid, message := m, progress := p,
          presented := none, returned := some (nextTokenFor (streamNameOf rid) 1) }],
       .ok ()) := by
  simp [logProgress, ensureLogStream, putLogEvents, okLogEnv, uploadTokenOf,
    setStreamCount, List.lookup]

/-- Evaluation lemma: a successful `logProgress` against a service whose
stream already holds `n` events re-reads the upload token of that stream in
`ensureLogStream`, presents it, and stores the returned next token. -/
theorem logProgress_existing (rid m : String) (p : Option Nat) (lg : LoggerState) (n : Nat) :
    logProgress okLogEnv { streams := [(streamNameOf rid, n)] } lg rid m p =
      ({ streams := [(streamNameOf rid, n + 1)] },
       { sequenceToken := some (nextTokenFor (streamNameOf rid) (n + 1)) },
       [{ stream := streamNameOf rid, message := m, progress := p,
          presented := uploadTokenOf (streamNameOf rid) n,
          returned := some (nextTokenFor (streamNameOf rid) (n + 1)) }],
       .ok ()) := by
  simp [logProgress, ensureLogStream, putLogEvents, okLogEnv, setStreamCount, List.lookup]

/-- C6: for any resource and any starting stream state (absent, or already
holding n events), two sequential successful `append` calls never both
present the empty initial cursor, and the second call presents exactly the
next-cursor the log service returned for the first. -/
theorem c6_sequential_cursor (rid m1 m2 : String) (p1 p2 : Option Nat)
    (lg0 : LoggerState) (start : Option Nat) (svc0 : LogServiceState)
    (hsvc : svc0 = { streams := match start with
                     | none => []
                     | some n => [(streamNameOf rid, n)] })
    (svc1 svc2 : LogServiceState) (lg1 lg2 : LoggerState)
    (cs1 cs2 : List PutCall) (e1 e2 : Except String Unit)
    (h1 : logProgress okLogEnv svc0 lg0 rid m1 p1 = (svc1, lg1, cs1, e1))
    (h2 : logProgress okLogEnv svc1 lg1 rid m2 p2 = (svc2, lg2, cs2, e2)) :
    ∃ c1 c2, cs1 = [c1] ∧ cs2 = [c2] ∧ c1.returned.isSome = true ∧
      c2.presented = c1.returned ∧ ¬(c1.presented = none ∧ c2.presented = none) := by
  subst hsvc
  cases start with
  | none =>
    rw [logProgress_fresh] at h1
    simp only [Prod.mk.injEq] at h1
    obtain ⟨ha, hb, hc, hd⟩ := h1
    subst ha; subst hb; subst hc; subst hd
    rw [logProgress_existing] at h2
    simp only [Prod.mk.injEq] at h2
    obtain ⟨ha2, hb2, hc2, hd2⟩ := h2
    subst ha2; subst hb2; subst hc2; subst hd2
    refine ⟨_, _, rfl, rfl, rfl, ?_, ?_⟩
    · simp [uploadTokenOf]
    · simp [uploadTokenOf]
  | some n =>
    rw [logProgress_existing] at h1
    simp only [Prod.mk.injEq] at h1
    obtain ⟨ha, hb, hc, hd⟩ := h1
    subst ha; subst hb; subst hc; subst hd
    rw [logProgress_existing] at h2
    simp only [Prod.mk.injEq] at h2
    obtain ⟨ha2, hb2, hc2, hd2⟩ := h2
    subst ha2; subst hb2; subst hc2; subst hd2
    refine ⟨_, _, rfl, rfl, rfl, ?_, ?_⟩
    · simp [uploadTokenOf]
    · simp [uploadTokenOf]

/-- C6 witness: `c6_sequential_cursor` evaluated for resource "r" on a fresh
stream — the first append presents the empty cursor and is answered with
token video-r#1; the second presents exactly video-r#1. -/
theorem c6_sequential_cursor_witness :
    ∃ c1 c2,
      ([{ stream := "video-r", message := "a", progress := none, presented := none,
          returned := some "video-r#1" }] : List PutCall) = [c1] ∧
      ([{ stream := "video-r", message := "b", progress := none,
          presented := some "video-r#1", returned := some "video-r#2" }] : List PutCall)
        = [c2] ∧
      c1.returned.isSome = true ∧ c2.presented = c1.returned ∧
      ¬(c1.presented = none ∧ c2.presented = none) :=
  c6_sequential_cursor "r" "a" "b" none none ⟨none⟩ none ⟨[]⟩ rfl _ _ _ _ _ _ _ _ rfl rfl

/-- C4 counterexample: the write-cursor cache is one shared field, not
per-stream.  After append("a") the cache holds the token of stream video-a;
the very next append("b") overwrites it with the token of stream video-b, so
the stored cursor of resource "a" does not survive the append of another
resource, contrary to the claim. -/
theorem c4_counterexample :
    ((logProgress okLogEnv ⟨[]⟩ ⟨none⟩ "a" "m" none).2.1).sequenceToken
        = some "video-a#1" ∧
    ((logProgress okLogEnv (logProgress okLogEnv ⟨[]⟩ ⟨none⟩ "a" "m" none).1
        (logProgress okLogEnv ⟨[]⟩ ⟨none⟩ "a" "m" none).2.1 "b" "m" none).2.1).sequenceToken
        = some "video-b#1" ∧
    ((logProgress okLogEnv (logProgress okLogEnv ⟨[]⟩ ⟨none⟩ "a" "m" none).1
        (logProgress okLogEnv ⟨[]⟩ ⟨none⟩ "a" "m" none).2.1 "b" "m" none).2.1).sequenceToken
      ≠ ((logProgress okLogEnv ⟨[]⟩ ⟨none⟩ "a" "m" none).2.1).sequenceToken := by
  refine ⟨rfl, rfl, ?_⟩
  decide

/-- C4 (amended): the cursor cache is a single field shared by all streams —
an append for r2 does overwrite the cursor stored by the last append for r1 —
but a subsequent append for r1 still presents exactly the next-cursor the
service returned for the last r1 append, because `ensureLogStream` re-reads
the upload token of the stream from the service before every put. -/
theorem c4_shared_cursor_refetch (r1 r2 m1 m2 m3 : String) (p1 p2 p3 : Option Nat)
    (h : r1 ≠ r2)
    (svc1 svc2 svc3 : LogServiceState) (lg1 lg2 lg3 : LoggerState)
    (cs1 cs2 cs3 : List PutCall) (e1 e2 e3 : Except String Unit)
    (h1 : logProgress okLogEnv { streams := [] } { sequenceToken := none } r1 m1 p1
            = (svc1, lg1, cs1, e1))
    (h2 : logProgress okLogEnv svc1 lg1 r2 m2 p2 = (svc2, lg2, cs2, e2))
    (h3 : logProgress okLogEnv svc2 lg2 r1 m3 p3 = (svc3, lg3, cs3, e3)) :
    lg1.sequenceToken = some (nextTokenFor (streamNameOf r1) 1) ∧
    lg2.sequenceToken = some (nextTokenFor (streamNameOf r2) 1) ∧
    (∃ c1 c3, cs1 = [c1] ∧ cs3 = [c3] ∧
      c1.returned = some (nextTokenFor (streamNameOf r1) 1) ∧
      c3.presented = c1.returned ∧ c3.returned.isSome = true) := by
  have hb21 : (streamNameOf r2 == streamNameOf r1) = false := by
    simp only [beq_eq_false_iff_ne, ne_eq]
    exact fun hh => h (streamNameOf_injective hh).symm
  have hb12 : (streamNameOf r1 == streamNameOf r2) = false := by
    simp only [beq_eq_false_iff_ne, ne_eq]
    exact fun hh => h (streamNameOf_injective hh)
  rw [logProgress_fresh] at h1
  simp only [Prod.mk.injEq] at h1
  obtain ⟨ha, hbx, hc, hd⟩ := h1
  subst ha; subst hbx; subst hc; subst hd
  have hc2 : logProgress okLogEnv { streams := [(streamNameOf r1, 1)] }
      { sequenceToken := some (nextTokenFor (streamNameOf r1) 1) } r2 m2 p2 =
      ({ streams := [(streamNameOf r2, 1), (streamNameOf r1, 1)] },
       { sequenceToken := some (nextTokenFor (streamNameOf r2) 1) },
       [{ stream := streamNameOf r2, message := m2, progress := p2,
          presented := none, returned := some (nextTokenFor (streamNameOf r2) 1) }],
       .ok ()) := by
    simp [logProgress, ensureLogStream, putLogEvents, okLogEnv, uploadTokenOf,
      setStreamCount, List.lookup, hb21, bne, hb12]
  rw [hc2] at h2
  simp only [Prod.mk.injEq] at h2
  obtain ⟨ha2, hb2, hcx2, hd2⟩ := h2
  subst ha2; subst hb2; subst hcx2; subst hd2
  have hc3 : logProgress okLogEnv { streams := [(streamNameOf r2, 1), (streamNameOf r1, 1)] }
      { sequenceToken := some (nextTokenFor (streamNameOf r2) 1) } r1 m3 p3 =
      ({ streams := [(streamNameOf r1, 2), (streamNameOf r2, 1)] },
       { sequenceToken := some (nextTokenFor (streamNameOf r1) 2) },
       [{ stream := streamNameOf r1, message := m3, progress := p3,
          presented := some (nextTokenFor (streamNameOf r1) 1),
          returned := some (nextTokenFor (streamNameOf r1) 2) }],
       .ok ()) := by
    simp [logProgress, ensureLogStream, putLogEvents, okLogEnv, uploadTokenOf,
      setStreamCount, List.lookup, hb21, bne, hb12]
  rw [hc3] at h3
  simp only [Prod.mk.injEq] at h3
  obtain ⟨ha3, hb3, hcx3, hd3⟩ := h3
  subst ha3; subst hb3; subst hcx3; subst hd3
  exact ⟨rfl, rfl, _, _, rfl, rfl, rfl, rfl, rfl⟩

/-- C4 witness: `c4_shared_cursor_refetch` evaluated for resources "a" and
"b" from a fresh service. -/
theorem c4_shared_cursor_refetch_witness :
    (LoggerState.mk (some "video-a#1")).sequenceToken = some "video-a#1" ∧
    (LoggerState.mk (some "video-b#1")).sequenceToken = some "video-b#1" ∧
    (∃ c1 c3,
      ([{ stream := "video-a", message := "x", progress := none, presented := none,
          returned := some "video-a#1" }] : List PutCall) = [c1] ∧
      ([{ stream := "video-a", message := "z", progress := none,
          presented := some "video-a#1", returned := some "video-a#2" }] : List PutCall)
        = [c3] ∧
      c1.returned = some "video-a#1" ∧ c3.presented = c1.returned ∧
      c3.returned.isSome = true) :=
  c4_shared_cursor_refetch "a" "b" "x" "y" "z" none none none (by decide)
    _ _ _ _ _ _ _ _ _ _ _ _ rfl rfl rfl

end StreamingPoc
